import Mathlib

/-!
Verification of the kube-state-metrics collector layer (pod, deployment and
namespace collectors), shallowly embedded from the Go sources
`pkg/collectors/pod.go` (src/unnamed/part_000), `pkg/collectors/deployment.go`
and `pkg/collectors/namespace.go`.

Modelling conventions:
* `float64` metric values: every value produced by these generators is either
  0, 1, an int32 replica count, or a Unix timestamp — all integers exactly
  representable in float64 — so `Value` is modelled as `Int`.
* Go nil pointers become `Option`; a Go panic (nil-pointer dereference)
  is modelled by a generator returning `none`.
* `metav1.Time` creation timestamps are modelled as `Option Int` (Unix
  seconds); `none` stands for the zero time, so `IsZero` is `Option.isNone`.
* Go maps for object labels are modelled as association lists
  `List (String × String)`.
* The Go wrappers mutate each `*Metric` in place; the pure wrappers below use
  `List.map`, and a separate heap model (`wrapFuncH`) captures the in-place
  mutation faithfully for the idempotence claim.
-/

/-- `metrics.Metric`: label keys and label values, positionally paired, plus a
numeric value (see the conventions above for why `Int`). -/
structure Metric where
  name : String
  labelKeys : List String
  labelValues : List String
  value : Int
deriving Repr, DecidableEq

/-- `metrics.Family`: a list of metrics (`[]*metrics.Metric` in Go). -/
abbrev Family := List Metric

/-- `metrics.MetricType`. -/
inductive MetricType where
  | gauge
  | counter
deriving Repr, DecidableEq

/-- `metrics.FamilyGenerator`: name, type, help text and the generate
function.  `ρ` is `Family` for generators that cannot panic and
`Option Family` where a panic is possible. -/
structure FamilyGenerator (α ρ : Type) where
  name : String
  type : MetricType
  help : String
  generateFunc : α → ρ

/-- `boolFloat64` (pkg/collectors/utils.go, referenced by pod.go).
Modelled from the spec: "each valued 1.0 for the matching state and 0.0
otherwise". -/
def boolFloat64 (b : Bool) : Int :=
  if b then 1 else 0

/-- Go standard library `strconv.FormatBool`. -/
def strconvFormatBool (b : Bool) : String :=
  if b then "true" else "false"

/-- `node.NodeUnreachablePodReason` from k8s.io/kubernetes/pkg/util/node:
the sentinel reason set on pods of an unreachable node. -/
def nodeUnreachablePodReason : String := "NodeLost"

/-- `v1.OwnerReference` (the fields the collectors read): `Controller` is a
`*bool` in Go, hence `Option Bool`. -/
structure OwnerReference where
  kind : String
  name : String
  controller : Option Bool
deriving Repr, DecidableEq

/-- The slice of `metav1.ObjectMeta` the collectors read. -/
structure ObjectMeta where
  «namespace» : String
  name : String
  uid : String
  creationTimestamp : Option Int
  deletionTimestamp : Option Int
  labels : List (String × String)
  annots : List (String × String)
  ownerReferences : List OwnerReference
deriving Repr, DecidableEq

/-- `metav1.GetControllerOf`: the first owner reference whose `Controller`
pointer is non-nil and true. -/
def getControllerOf (m : ObjectMeta) : Option OwnerReference :=
  m.ownerReferences.find? (fun o => o.controller == some true)

/-- `v1.PodCondition` (fields read: `Type`, `Status`), both plain strings in
the embedding (`v1.PodReady = "Ready"`, `v1.PodScheduled = "PodScheduled"`;
status in {"True", "False", "Unknown"}). -/
structure PodCondition where
  type : String
  status : String
deriving Repr, DecidableEq

/-- `v1.ContainerStateWaiting` / `v1.ContainerStateTerminated` (field read:
`Reason`). -/
structure ContainerStateDetail where
  reason : String
deriving Repr, DecidableEq

/-- `v1.ContainerState`: `Waiting` and `Terminated` are pointers in Go. -/
structure ContainerState where
  waiting : Option ContainerStateDetail
  terminated : Option ContainerStateDetail
deriving Repr, DecidableEq

/-- `v1.ContainerStatus` (fields read by pod.go). -/
structure ContainerStatus where
  name : String
  state : ContainerState
  lastTerminationState : ContainerState
deriving Repr, DecidableEq

/-- `v1.PodStatus` (fields read by pod.go); `Phase` and `Reason` are strings
(`v1.PodPending = "Pending"` and so on). -/
structure PodStatus where
  phase : String
  reason : String
  hostIP : String
  podIP : String
  conditions : List PodCondition
  containerStatuses : List ContainerStatus
deriving Repr, DecidableEq

/-- `v1.PodSpec` (field read: `NodeName`). -/
structure PodSpec where
  nodeName : String
deriving Repr, DecidableEq

/-- `v1.Pod`. -/
structure Pod where
  meta : ObjectMeta
  spec : PodSpec
  status : PodStatus
deriving Repr, DecidableEq

/-- `v1beta1.DeploymentSpec` (field read: `Replicas`, a `*int32`). -/
structure DeploymentSpec where
  replicas : Option Int
deriving Repr, DecidableEq

/-- `v1beta1.DeploymentStatus` (fields read by deployment.go). -/
structure DeploymentStatus where
  replicas : Int
  availableReplicas : Int
  unavailableReplicas : Int
deriving Repr, DecidableEq

/-- `v1beta1.Deployment`. -/
structure Deployment where
  meta : ObjectMeta
  spec : DeploymentSpec
  status : DeploymentStatus
deriving Repr, DecidableEq

/-- `v1.Namespace`. -/
structure KubeNamespace where
  meta : ObjectMeta
deriving Repr, DecidableEq

/-- `descPodLabelsDefaultLabels` (pod.go line 34). -/
def descPodLabelsDefaultLabels : List String := ["namespace", "pod"]

/-- `containerWaitingReasons` (pod.go line 35). -/
def containerWaitingReasons : List String :=
  ["ContainerCreating", "CrashLoopBackOff", "CreateContainerConfigError",
   "ErrImagePull", "ImagePullBackOff"]

/-- `containerTerminatedReasons` (pod.go line 36). -/
def containerTerminatedReasons : List String :=
  ["OOMKilled", "Completed", "Error", "ContainerCannotRun"]

/-- `descDeploymentLabelsDefaultLabels` (deployment.go line 33). -/
def descDeploymentLabelsDefaultLabels : List String := ["namespace", "deployment"]

/-- `descNamespaceLabelsDefaultLabels` (namespace.go line 33). -/
def descNamespaceLabelsDefaultLabels : List String := ["namespace"]

/-- `waitingReason` (pod.go lines 240-245). -/
def waitingReason (cs : ContainerStatus) (reason : String) : Bool :=
  match cs.state.waiting with
  | none => false
  | some w => w.reason == reason

/-- `terminationReason` (pod.go lines 247-252). -/
def terminationReason (cs : ContainerStatus) (reason : String) : Bool :=
  match cs.state.terminated with
  | none => false
  | some t => t.reason == reason

/-- `lastTerminationReason` (pod.go lines 254-259). -/
def lastTerminationReason (cs : ContainerStatus) (reason : String) : Bool :=
  match cs.lastTerminationState.terminated with
  | none => false
  | some t => t.reason == reason

/-- Modelled from the spec: `addConditionMetrics` (a status-encoding helper of
pkg/collectors/utils.go, referenced by pod.go but not among these files).
Per spec §4.3, a tri-state condition is "encoded as three same-named Metrics
sharing one extra label naming the state (true/false/unknown), each valued
1.0 for the matching state and 0.0 otherwise". The caller fills in the name
and the label key. -/
def addConditionMetrics (cs : String) : Family :=
  [ ⟨"", [], ["true"], boolFloat64 (cs == "True")⟩,
    ⟨"", [], ["false"], boolFloat64 (cs == "False")⟩,
    ⟨"", [], ["unknown"], boolFloat64 (cs == "Unknown")⟩ ]

/-- Modelled from the spec: the label-name sanitizer used by
`kubeLabelsToPrometheusLabels` (pkg/collectors/utils.go, not among these
files): any character not valid in a Prometheus label is replaced. -/
def sanitizeLabelName (s : String) : String :=
  s.map (fun c => if c.isAlphanum then c else '_')

/-- Modelled from the spec: `kubeLabelsToPrometheusLabels`
(pkg/collectors/utils.go, referenced by deployment.go and namespace.go but
not among these files): "Kubernetes labels converted to Prometheus labels" —
one label key/value pair per Kubernetes label, keys sanitized and given a
fixed prefix, values passed through. Keys and values stay positionally
paired. -/
def kubeLabelsToPrometheusLabels (ls : List (String × String)) :
    List String × List String :=
  (ls.map (fun kv => "label_" ++ sanitizeLabelName kv.1),
   ls.map (fun kv => kv.2))

/-- Modelled from the spec: `kubeAnnotationsToPrometheusAnnotations`
(pkg/collectors/utils.go, referenced by namespace.go but not among these
files): same shape as the label conversion, with the annotation prefix. -/
def kubeAnnotToPrometheusAnnot (ls : List (String × String)) :
    List String × List String :=
  (ls.map (fun kv => "annotation_" ++ sanitizeLabelName kv.1),
   ls.map (fun kv => kv.2))

/-- The inner generator of `kube_pod_info` (pod.go lines 43-64). -/
def podInfoInner (p : Pod) : Family :=
  let createdBy := getControllerOf p.meta
  let createdByKind :=
    match createdBy with
    | none => "<none>"
    | some o => if o.kind == "" then "<none>" else o.kind
  let createdByName :=
    match createdBy with
    | none => "<none>"
    | some o => if o.name == "" then "<none>" else o.name
  [ ⟨"kube_pod_info",
     ["host_ip", "pod_ip", "uid", "node", "created_by_kind", "created_by_name"],
     [p.status.hostIP, p.status.podIP, p.meta.uid, p.spec.nodeName,
      createdByKind, createdByName],
     1⟩ ]

/-- The inner generator of `kube_pod_owner` (pod.go lines 70-103). -/
def podOwnerInner (p : Pod) : Family :=
  let labelKeys := ["owner_kind", "owner_name", "owner_is_controller"]
  let owners := p.meta.ownerReferences
  if owners = [] then
    [ ⟨"kube_pod_owner", labelKeys, ["<none>", "<none>", "<none>"], 1⟩ ]
  else
    owners.map (fun owner =>
      match owner.controller with
      | some c =>
        ⟨"kube_pod_owner", labelKeys,
         [owner.kind, owner.name, strconvFormatBool c], 1⟩
      | none =>
        ⟨"kube_pod_owner", labelKeys, [owner.kind, owner.name, "false"], 1⟩)

/-- The inner generator of `kube_pod_status_phase` (pod.go lines 109-140):
an empty phase yields no samples; otherwise one boolean sample per phase in
the fixed order, with the unreachable-node override copied from the upstream
printer logic. -/
def podStatusPhaseInner (p : Pod) : Family :=
  if p.status.phase == "" then []
  else
    let override :=
      p.meta.deletionTimestamp.isSome
        && (p.status.reason == nodeUnreachablePodReason)
    let phases : List (Bool × String) :=
      [ (p.status.phase == "Pending", "Pending"),
        (p.status.phase == "Succeeded", "Succeeded"),
        (p.status.phase == "Failed", "Failed"),
        ((p.status.phase == "Running") && !override, "Running"),
        ((p.status.phase == "Unknown") || override, "Unknown") ]
    phases.map (fun ph =>
      ⟨"kube_pod_status_phase", ["phase"], [ph.2], boolFloat64 ph.1⟩)

/-- The inner generator of `kube_pod_status_ready` (pod.go lines 146-164). -/
def podStatusReadyInner (p : Pod) : Family :=
  p.status.conditions.flatMap (fun c =>
    if c.type == "Ready" then
      (addConditionMetrics c.status).map (fun m =>
        { m with name := "kube_pod_status_ready", labelKeys := ["condition"] })
    else [])

/-- The inner generator of `kube_pod_status_scheduled` (pod.go lines
170-188). -/
def podStatusScheduledInner (p : Pod) : Family :=
  p.status.conditions.flatMap (fun c =>
    if c.type == "PodScheduled" then
      (addConditionMetrics c.status).map (fun m =>
        { m with name := "kube_pod_status_scheduled",
                 labelKeys := ["condition"] })
    else [])

/-- The inner generator of `kube_pod_container_status_waiting_reason`
(pod.go lines 194-209). -/
def podWaitingReasonInner (p : Pod) : Family :=
  p.status.containerStatuses.flatMap (fun cs =>
    containerWaitingReasons.map (fun reason =>
      ⟨"kube_pod_container_status_waiting_reason", ["container", "reason"],
       [cs.name, reason], boolFloat64 (waitingReason cs reason)⟩))

/-- `wrapPodFunc` (pod.go lines 214-227): prepends the pod default label keys
and the pod's namespace/name to every metric the inner generator produced.
The Go loop mutates each metric in place; on fresh metrics that is
observationally `List.map` (the heap model below treats the mutation
itself). -/
def wrapPodFunc (f : Pod → Family) : Pod → Family :=
  fun pod =>
    (f pod).map (fun m =>
      { m with
        labelKeys := descPodLabelsDefaultLabels ++ m.labelKeys
        labelValues := [pod.meta.«namespace», pod.meta.name] ++ m.labelValues })

/-- `podMetricFamilies` (pod.go lines 38-211). -/
def podMetricFamilies : List (FamilyGenerator Pod Family) :=
  [ ⟨"kube_pod_info", .gauge, "Information about pod.",
     wrapPodFunc podInfoInner⟩,
    ⟨"kube_pod_owner", .gauge, "Information about the Pod's owner.",
     wrapPodFunc podOwnerInner⟩,
    ⟨"kube_pod_status_phase", .gauge, "The pods current phase.",
     wrapPodFunc podStatusPhaseInner⟩,
    ⟨"kube_pod_status_ready", .gauge,
     "Describes whether the pod is ready to serve requests.",
     wrapPodFunc podStatusReadyInner⟩,
    ⟨"kube_pod_status_scheduled", .gauge,
     "Describes the status of the scheduling process for the pod.",
     wrapPodFunc podStatusScheduledInner⟩,
    ⟨"kube_pod_container_status_waiting_reason", .gauge,
     "Describes the reason the container is currently in waiting state.",
     wrapPodFunc podWaitingReasonInner⟩ ]

/-- The inner generator of `kube_deployment_created` (deployment.go lines
40-51): no sample when the creation timestamp is the zero time.  Deployment
inner generators return `Option Family` because one of them can panic; this
one always succeeds. -/
def deploymentCreatedInner (d : Deployment) : Option Family :=
  some (match d.meta.creationTimestamp with
    | none => []
    | some ts => [⟨"kube_deployment_created", [], [], ts⟩])

/-- The inner generator of `kube_deployment_status_replicas` (deployment.go
lines 57-62). -/
def deploymentStatusReplicasInner (d : Deployment) : Option Family :=
  some [⟨"kube_deployment_status_replicas", [], [], d.status.replicas⟩]

/-- The inner generator of `kube_deployment_status_replicas_available`
(deployment.go lines 68-73). -/
def deploymentStatusReplicasAvailInner (d : Deployment) : Option Family :=
  some [⟨"kube_deployment_status_replicas_available", [], [],
         d.status.availableReplicas⟩]

/-- The inner generator of `kube_deployment_status_replicas_unavailable`
(deployment.go lines 79-84). -/
def deploymentStatusReplicasUnavailInner (d : Deployment) : Option Family :=
  some [⟨"kube_deployment_status_replicas_unavailable", [], [],
         d.status.unavailableReplicas⟩]

/-- The inner generator of `kube_deployment_spec_replicas` (deployment.go
lines 90-95): the Go code reads `*d.Spec.Replicas` without a nil check, so a
deployment with a nil `Spec.Replicas` pointer panics — modelled as `none`. -/
def deploymentSpecReplicasInner (d : Deployment) : Option Family :=
  match d.spec.replicas with
  | none => none
  | some r => some [⟨"kube_deployment_spec_replicas", [], [], r⟩]

/-- The inner generator of `kube_deployment_labels` (deployment.go lines
101-109). -/
def deploymentLabelsInner (d : Deployment) : Option Family :=
  let kv := kubeLabelsToPrometheusLabels d.meta.labels
  some [⟨"kube_deployment_labels", kv.1, kv.2, 1⟩]

/-- `wrapDeploymentFunc` (deployment.go lines 114-127); a panic of the inner
generator (`none`) propagates through the wrapper. -/
def wrapDeploymentFunc (f : Deployment → Option Family) :
    Deployment → Option Family :=
  fun deployment =>
    (f deployment).map (List.map (fun m =>
      { m with
        labelKeys := descDeploymentLabelsDefaultLabels ++ m.labelKeys
        labelValues :=
          [deployment.meta.«namespace», deployment.meta.name]
            ++ m.labelValues }))

/-- `deploymentMetricFamilies` (deployment.go lines 35-111). -/
def deploymentMetricFamilies :
    List (FamilyGenerator Deployment (Option Family)) :=
  [ ⟨"kube_deployment_created", .gauge, "Unix creation timestamp",
     wrapDeploymentFunc deploymentCreatedInner⟩,
    ⟨"kube_deployment_status_replicas", .gauge,
     "The number of replicas per deployment.",
     wrapDeploymentFunc deploymentStatusReplicasInner⟩,
    ⟨"kube_deployment_status_replicas_available", .gauge,
     "The number of available replicas per deployment.",
     wrapDeploymentFunc deploymentStatusReplicasAvailInner⟩,
    ⟨"kube_deployment_status_replicas_unavailable", .gauge,
     "The number of unavailable replicas per deployment.",
     wrapDeploymentFunc deploymentStatusReplicasUnavailInner⟩,
    ⟨"kube_deployment_spec_replicas", .gauge,
     "Number of desired pods for a deployment.",
     wrapDeploymentFunc deploymentSpecReplicasInner⟩,
    ⟨"kube_deployment_labels", .gauge,
     "Kubernetes labels converted to Prometheus labels.",
     wrapDeploymentFunc deploymentLabelsInner⟩ ]

/-- The inner generator of `kube_namespace_labels` (namespace.go lines
44-52). -/
def namespaceLabelsInner (n : KubeNamespace) : Family :=
  let kv := kubeLabelsToPrometheusLabels n.meta.labels
  [⟨"kube_namespace_labels", kv.1, kv.2, 1⟩]

/-- The inner generator of `kube_namespace_annotations` (namespace.go lines
58-66). -/
def namespaceAnnotInner (n : KubeNamespace) : Family :=
  let kv := kubeAnnotToPrometheusAnnot n.meta.annots
  [⟨"kube_namespace_annotations", kv.1, kv.2, 1⟩]

/-- `wrapNamespaceFunc` (namespace.go lines 71-84): namespaces are
cluster-scoped, so only the object's name is prepended, under the single
default label key. -/
def wrapNamespaceFunc (f : KubeNamespace → Family) : KubeNamespace → Family :=
  fun ns =>
    (f ns).map (fun m =>
      { m with
        labelKeys := descNamespaceLabelsDefaultLabels ++ m.labelKeys
        labelValues := [ns.meta.name] ++ m.labelValues })

/-- `namespaceMetricFamilies` (namespace.go lines 39-68). -/
def namespaceMetricFamilies : List (FamilyGenerator KubeNamespace Family) :=
  [ ⟨"kube_namespace_labels", .gauge,
     "Kubernetes labels converted to Prometheus labels.",
     wrapNamespaceFunc namespaceLabelsInner⟩,
    ⟨"kube_namespace_annotations", .gauge,
     "Kubernetes annotations converted to Prometheus labels.",
     wrapNamespaceFunc namespaceAnnotInner⟩ ]

/-- The pod inner generators, in registration order (used to quantify over
"every registered pod generator" before wrapping). -/
def podInnerGenerators : List (Pod → Family) :=
  [podInfoInner, podOwnerInner, podStatusPhaseInner, podStatusReadyInner,
   podStatusScheduledInner, podWaitingReasonInner]

/-- The deployment inner generators, in registration order. -/
def deploymentInnerGenerators : List (Deployment → Option Family) :=
  [deploymentCreatedInner, deploymentStatusReplicasInner,
   deploymentStatusReplicasAvailInner, deploymentStatusReplicasUnavailInner,
   deploymentSpecReplicasInner, deploymentLabelsInner]

/-- The namespace inner generators, in registration order. -/
def namespaceInnerGenerators : List (KubeNamespace → Family) :=
  [namespaceLabelsInner, namespaceAnnotInner]

/-- The zero `Metric` (Go's zero value), used as the out-of-range default in
the heap model. -/
def defaultMetric : Metric := ⟨"", [], [], 0⟩

/-- A heap of `Metric` records; Go's `*Metric` pointers are indices into it. -/
abbrev Heap := List Metric

/-- An allocation-style generator: takes the object and the current heap,
returns the extended heap and the pointers of the family it produced. -/
abbrev HGen (α : Type) := α → Heap → Heap × List Nat

/-- Lift a pure generator to the heap model: the Go generator bodies allocate
fresh `Metric` records on every call, so the lifted generator appends fresh
cells and returns their indices. -/
def liftGen (g : α → Family) : HGen α :=
  fun x h => (h ++ g x, List.range' h.length (g x).length)

/-- One in-place update `m.LabelKeys = ...; m.LabelValues = ...` through a
pointer: overwrite heap cell `i` with `f` of its current contents. -/
def mutateAt (f : Metric → Metric) (h : Heap) (i : Nat) : Heap :=
  h.set i (f (h.getD i defaultMetric))

/-- The wrapper loop of `wrapPodFunc` / `wrapDeploymentFunc` /
`wrapNamespaceFunc` in the heap model: run the inner generator, then mutate
every metric it returned in place (prepending the default labels), returning
the same pointers. -/
def wrapFuncH (prep : α → Metric → Metric) (gen : HGen α) : HGen α :=
  fun x h =>
    let r := gen x h
    (r.2.foldl (mutateAt (prep x)) r.1, r.2)

/-- The label prepending of `wrapPodFunc` (pod.go lines 220-223). -/
def prependPodLabels (pod : Pod) (m : Metric) : Metric :=
  { m with
    labelKeys := descPodLabelsDefaultLabels ++ m.labelKeys
    labelValues := [pod.meta.«namespace», pod.meta.name] ++ m.labelValues }

/-- The label prepending of `wrapDeploymentFunc` (deployment.go lines
120-123). -/
def prependDeploymentLabels (d : Deployment) (m : Metric) : Metric :=
  { m with
    labelKeys := descDeploymentLabelsDefaultLabels ++ m.labelKeys
    labelValues := [d.meta.«namespace», d.meta.name] ++ m.labelValues }

/-- The label prepending of `wrapNamespaceFunc` (namespace.go lines 77-80). -/
def prependNamespaceLabels (ns : KubeNamespace) (m : Metric) : Metric :=
  { m with
    labelKeys := descNamespaceLabelsDefaultLabels ++ m.labelKeys
    labelValues := [ns.meta.name] ++ m.labelValues }

/-- Read a family back out of the heap: the samples a scrape serializes. -/
def readFamily (h : Heap) (ptrs : List Nat) : Family :=
  ptrs.map (fun i => h.getD i defaultMetric)

/-- A baseline object meta for concrete test objects. -/
def exampleMeta : ObjectMeta :=
  ⟨"default", "obj-1", "uid-1", some 1600000000, none,
   [("app", "demo")], [("team", "x")], []⟩

/-- A pod pending deletion on an unreachable node, raw phase Running. -/
def podLost : Pod :=
  { meta := { exampleMeta with
              name := "pod-lost"
              deletionTimestamp := some 1600000100 },
    spec := ⟨"node-1"⟩,
    status := ⟨"Running", "NodeLost", "10.0.0.1", "10.1.0.1", [], []⟩ }

/-- A pod with no owner references and no controlling owner. -/
def podNoOwner : Pod :=
  { meta := { exampleMeta with name := "pod-solo" },
    spec := ⟨"node-1"⟩,
    status := ⟨"Pending", "", "10.0.0.1", "10.1.0.2", [], []⟩ }

/-- A pod with two owner references, the first marked controller. -/
def podTwoOwners : Pod :=
  { meta := { exampleMeta with
              name := "pod-owned"
              ownerReferences :=
                [⟨"ReplicaSet", "rs-1", some true⟩,
                 ⟨"Service", "svc-1", none⟩] },
    spec := ⟨"node-2"⟩,
    status := ⟨"Running", "", "10.0.0.2", "10.1.0.3", [], []⟩ }

/-- A pod whose status phase is empty (optional field missing). -/
def podEmptyPhase : Pod :=
  { meta := { exampleMeta with name := "pod-blank" },
    spec := ⟨"node-1"⟩,
    status := ⟨"", "", "", "", [], []⟩ }

/-- A pod with a Ready=True and a PodScheduled=False condition. -/
def podWithConditions : Pod :=
  { meta := { exampleMeta with name := "pod-cond" },
    spec := ⟨"node-1"⟩,
    status := ⟨"Running", "", "10.0.0.1", "10.1.0.4",
               [⟨"Ready", "True"⟩, ⟨"PodScheduled", "False"⟩], []⟩ }

/-- A pod with one container waiting for a reason outside the enumerated
set. -/
def podWaitingOdd : Pod :=
  { meta := { exampleMeta with name := "pod-wait" },
    spec := ⟨"node-1"⟩,
    status := ⟨"Pending", "", "10.0.0.1", "10.1.0.5", [],
               [⟨"app", ⟨some ⟨"SomeOtherReason"⟩, none⟩, ⟨none, none⟩⟩]⟩ }

/-- A deployment whose creation timestamp is the zero time. -/
def deploymentZeroCreated : Deployment :=
  { meta := { exampleMeta with
              name := "dep-young"
              creationTimestamp := none },
    spec := ⟨some 3⟩,
    status := ⟨3, 3, 0⟩ }

/-- A deployment with a nil `Spec.Replicas` pointer. -/
def nilReplicasDeployment : Deployment :=
  { meta := { exampleMeta with name := "dep-broken" },
    spec := ⟨none⟩,
    status := ⟨1, 1, 0⟩ }

/-- An ordinary deployment. -/
def exampleDeployment : Deployment :=
  { meta := { exampleMeta with name := "dep-1" },
    spec := ⟨some 2⟩,
    status := ⟨2, 2, 0⟩ }

/-- The lower-case state label that spec §4.3 assigns to a tri-state
condition status ("True" → "true", "False" → "false", "Unknown" →
"unknown"). -/
def conditionStateLabel (s : String) : String :=
  if s == "True" then "true" else if s == "False" then "false" else "unknown"

lemma getElem_append_cons (pre : List Metric) (m : Metric)
    (rest : List Metric) (hlt : pre.length < (pre ++ m :: rest).length) :
    (pre ++ m :: rest)[pre.length] = m := by
  induction pre with
  | nil => rfl
  | cons a t ih =>
    simp only [List.length_cons, List.cons_append, List.getElem_cons_succ]
    exact ih (by simp)

lemma getD_append_cons (pre : List Metric) (m : Metric) (rest : List Metric) :
    (pre ++ m :: rest).getD pre.length defaultMetric = m := by
  have hlt : pre.length < (pre ++ m :: rest).length := by simp
  simp [List.getD_eq_getElem _ _ hlt, getElem_append_cons]

lemma set_append_cons (pre : List Metric) (m x : Metric)
    (rest : List Metric) :
    (pre ++ m :: rest).set pre.length x = pre ++ x :: rest := by
  induction pre with
  | nil => rfl
  | cons a t ih => simp [ih]

/-- Mutating a freshly allocated block in place rewrites exactly that block:
folding `mutateAt f` over the indices of `ms` inside `pre ++ ms` maps `f`
over `ms` and leaves `pre` untouched. -/
lemma foldl_mutateAt_fresh (f : Metric → Metric) (pre ms : List Metric) :
    (List.range' pre.length ms.length).foldl (mutateAt f) (pre ++ ms)
      = pre ++ ms.map f := by
  induction ms generalizing pre with
  | nil => simp [List.range']
  | cons m rest ih =>
    have hstep : mutateAt f (pre ++ m :: rest) pre.length
        = pre ++ f m :: rest := by
      simp [mutateAt, getD_append_cons, set_append_cons, getElem_append_cons]
    have hlen : pre.length + 1 = (pre ++ [f m]).length := by simp
    calc (List.range' pre.length (m :: rest).length).foldl
            (mutateAt f) (pre ++ m :: rest)
        = (List.range' (pre.length + 1) rest.length).foldl
            (mutateAt f) (pre ++ f m :: rest) := by
          simp [List.range', hstep]
      _ = (List.range' (pre ++ [f m]).length rest.length).foldl
            (mutateAt f) ((pre ++ [f m]) ++ rest) := by
          rw [← hlen]; simp
      _ = (pre ++ [f m]) ++ rest.map f := ih (pre ++ [f m])
      _ = pre ++ (m :: rest).map f := by simp

/-- Reading back a block of pointers into `pre ++ ms` yields `ms`. -/
lemma readFamily_append (pre ms : List Metric) :
    readFamily (pre ++ ms) (List.range' pre.length ms.length) = ms := by
  induction ms generalizing pre with
  | nil => simp [readFamily, List.range']
  | cons m rest ih =>
    have hlen : pre.length + 1 = (pre ++ [m]).length := by simp
    calc readFamily (pre ++ m :: rest)
            (List.range' pre.length (m :: rest).length)
        = m :: readFamily (pre ++ m :: rest)
            (List.range' (pre.length + 1) rest.length) := by
          simp [readFamily, List.range', getD_append_cons, getElem_append_cons]
      _ = m :: readFamily ((pre ++ [m]) ++ rest)
            (List.range' ((pre ++ [m])).length rest.length) := by
          rw [← hlen]; simp
      _ = m :: rest := by rw [ih (pre ++ [m])]

/-- The family a wrapped generator produces in the heap model, read back from
the mutated heap, is the inner family with the default labels prepended —
whatever heap the run started from. -/
lemma wrapFuncH_lift_readFamily (prep : α → Metric → Metric)
    (g : α → Family) (x : α) (h : Heap) :
    readFamily ((wrapFuncH prep (liftGen g)) x h).1
        ((wrapFuncH prep (liftGen g)) x h).2
      = (g x).map (prep x) := by
  show readFamily
      ((List.range' h.length (g x).length).foldl (mutateAt (prep x))
        (h ++ g x))
      (List.range' h.length (g x).length)
    = (g x).map (prep x)
  rw [foldl_mutateAt_fresh]
  have := readFamily_append h ((g x).map (prep x))
  simpa using this

/-- C1: a pod whose raw phase is Running but which is pending deletion with
the sentinel unreachable-node status reason yields the five phase samples
with only the Unknown sample at 1.0 — every other sample, including
Running, is 0.0. -/
theorem C1_unreachable_override_phase_unknown (p : Pod)
    (h1 : p.status.phase = "Running")
    (h2 : p.meta.deletionTimestamp ≠ none)
    (h3 : p.status.reason = nodeUnreachablePodReason) :
    podStatusPhaseInner p =
      [ ⟨"kube_pod_status_phase", ["phase"], ["Pending"], 0⟩,
        ⟨"kube_pod_status_phase", ["phase"], ["Succeeded"], 0⟩,
        ⟨"kube_pod_status_phase", ["phase"], ["Failed"], 0⟩,
        ⟨"kube_pod_status_phase", ["phase"], ["Running"], 0⟩,
        ⟨"kube_pod_status_phase", ["phase"], ["Unknown"], 1⟩ ] := by
  obtain ⟨t, ht⟩ := Option.ne_none_iff_exists'.mp h2
  simp [podStatusPhaseInner, h1, h3, ht, nodeUnreachablePodReason, boolFloat64]

theorem C1_witness :
    podLost.status.phase = "Running" ∧
    podLost.meta.deletionTimestamp ≠ none ∧
    podLost.status.reason = nodeUnreachablePodReason ∧
    podStatusPhaseInner podLost =
      [ ⟨"kube_pod_status_phase", ["phase"], ["Pending"], 0⟩,
        ⟨"kube_pod_status_phase", ["phase"], ["Succeeded"], 0⟩,
        ⟨"kube_pod_status_phase", ["phase"], ["Failed"], 0⟩,
        ⟨"kube_pod_status_phase", ["phase"], ["Running"], 0⟩,
        ⟨"kube_pod_status_phase", ["phase"], ["Unknown"], 1⟩ ] :=
  ⟨rfl, by decide, rfl,
   C1_unreachable_override_phase_unknown podLost rfl (by decide) rfl⟩

/-- C2: each kind's wrapper prepends exactly the kind's default identity
label keys, in declared order, with the object's namespace/name as the first
values, ahead of whatever keys/values the inner generator produced —
positionally, sample by sample. -/
theorem C2_default_labels_prepended :
    (∀ (f : Pod → Family) (p : Pod) (i : Nat),
       (wrapPodFunc f p)[i]? = ((f p)[i]?).map (fun m =>
         (⟨m.name, "namespace" :: "pod" :: m.labelKeys,
           p.meta.«namespace» :: p.meta.name :: m.labelValues,
           m.value⟩ : Metric))) ∧
    (∀ (f : Deployment → Option Family) (d : Deployment) (fam : Family),
       f d = some fam →
       ∃ wfam, wrapDeploymentFunc f d = some wfam ∧ ∀ i : Nat,
         wfam[i]? = (fam[i]?).map (fun m =>
           (⟨m.name, "namespace" :: "deployment" :: m.labelKeys,
             d.meta.«namespace» :: d.meta.name :: m.labelValues,
             m.value⟩ : Metric))) ∧
    (∀ (f : KubeNamespace → Family) (n : KubeNamespace) (i : Nat),
       (wrapNamespaceFunc f n)[i]? = ((f n)[i]?).map (fun m =>
         (⟨m.name, "namespace" :: m.labelKeys,
           n.meta.name :: m.labelValues, m.value⟩ : Metric))) := by
  refine ⟨fun f p i => ?_, fun f d fam hf => ?_, fun f n i => ?_⟩
  · simp [wrapPodFunc, descPodLabelsDefaultLabels]
  · refine ⟨(fam.map (fun m =>
      (⟨m.name, "namespace" :: "deployment" :: m.labelKeys,
        d.meta.«namespace» :: d.meta.name :: m.labelValues,
        m.value⟩ : Metric))), ?_, fun i => by simp⟩
    simp [wrapDeploymentFunc, hf, descDeploymentLabelsDefaultLabels]
  · simp [wrapNamespaceFunc, descNamespaceLabelsDefaultLabels]

theorem C2_witness :
    deploymentStatusReplicasInner exampleDeployment =
        some [⟨"kube_deployment_status_replicas", [], [], 2⟩] ∧
    ∃ wfam,
      wrapDeploymentFunc deploymentStatusReplicasInner exampleDeployment
          = some wfam ∧
      ∀ i : Nat, wfam[i]? =
        (([⟨"kube_deployment_status_replicas", [], [], 2⟩] :
            Family)[i]?).map (fun m =>
          (⟨m.name, "namespace" :: "deployment" :: m.labelKeys,
            exampleDeployment.meta.«namespace»
              :: exampleDeployment.meta.name :: m.labelValues,
            m.value⟩ : Metric)) :=
  ⟨rfl, C2_default_labels_prepended.2.1 deploymentStatusReplicasInner
    exampleDeployment [⟨"kube_deployment_status_replicas", [], [], 2⟩] rfl⟩

/-- C3: a missing optional status field yields zero samples and the wrapper
does not synthesize any: a deployment with a zero creation timestamp
produces no kube_deployment_created sample and a pod with an empty status
phase produces no kube_pod_status_phase sample, inner or wrapped. -/
theorem C3_missing_field_yields_no_samples :
    (∀ d : Deployment, d.meta.creationTimestamp = none →
       deploymentCreatedInner d = some [] ∧
       wrapDeploymentFunc deploymentCreatedInner d = some []) ∧
    (∀ p : Pod, p.status.phase = "" →
       podStatusPhaseInner p = [] ∧
       wrapPodFunc podStatusPhaseInner p = []) := by
  constructor
  · intro d hd
    constructor <;>
      simp [deploymentCreatedInner, wrapDeploymentFunc, hd]
  · intro p hp
    constructor <;>
      simp [podStatusPhaseInner, wrapPodFunc, hp]

theorem C3_witness :
    deploymentZeroCreated.meta.creationTimestamp = none ∧
    podEmptyPhase.status.phase = "" ∧
    wrapDeploymentFunc deploymentCreatedInner deploymentZeroCreated
        = some [] ∧
    wrapPodFunc podStatusPhaseInner podEmptyPhase = [] :=
  ⟨rfl, rfl,
   (C3_missing_field_yields_no_samples.1 deploymentZeroCreated rfl).2,
   (C3_missing_field_yields_no_samples.2 podEmptyPhase rfl).2⟩

/-- C5: a pod with no owner references yields exactly one ownership sample
whose three extra label values are all the sentinel, valued 1.0; otherwise
one sample per owner reference echoing the owner's kind and name with the
controller flag rendered "true" or "false" (a nil controller pointer renders
"false"). -/
theorem C5_owner_samples (p : Pod) :
    (p.meta.ownerReferences = [] →
       podOwnerInner p =
         [⟨"kube_pod_owner",
           ["owner_kind", "owner_name", "owner_is_controller"],
           ["<none>", "<none>", "<none>"], 1⟩]) ∧
    (p.meta.ownerReferences ≠ [] →
       podOwnerInner p = p.meta.ownerReferences.map (fun o =>
         ⟨"kube_pod_owner",
          ["owner_kind", "owner_name", "owner_is_controller"],
          [o.kind, o.name,
           if o.controller = some true then "true" else "false"], 1⟩)) := by
  constructor
  · intro h
    simp [podOwnerInner, h]
  · intro h
    have hfun : ∀ o : OwnerReference,
        (match o.controller with
         | some c =>
           (⟨"kube_pod_owner",
             ["owner_kind", "owner_name", "owner_is_controller"],
             [o.kind, o.name, strconvFormatBool c], 1⟩ : Metric)
         | none =>
           ⟨"kube_pod_owner",
            ["owner_kind", "owner_name", "owner_is_controller"],
            [o.kind, o.name, "false"], 1⟩)
        = ⟨"kube_pod_owner",
           ["owner_kind", "owner_name", "owner_is_controller"],
           [o.kind, o.name,
            if o.controller = some true then "true" else "false"], 1⟩ := by
      intro o
      rcases hc : o.controller with _ | c
      · simp [hc]
      · cases c <;> simp [hc, strconvFormatBool]
    simp only [podOwnerInner, h, if_neg h]
    exact List.map_congr_left (fun o _ => hfun o)

theorem C5_witness :
    podNoOwner.meta.ownerReferences = [] ∧
    podOwnerInner podNoOwner =
      [⟨"kube_pod_owner",
        ["owner_kind", "owner_name", "owner_is_controller"],
        ["<none>", "<none>", "<none>"], 1⟩] ∧
    podTwoOwners.meta.ownerReferences ≠ [] ∧
    podOwnerInner podTwoOwners =
      [⟨"kube_pod_owner",
        ["owner_kind", "owner_name", "owner_is_controller"],
        ["ReplicaSet", "rs-1", "true"], 1⟩,
       ⟨"kube_pod_owner",
        ["owner_kind", "owner_name", "owner_is_controller"],
        ["Service", "svc-1", "false"], 1⟩] := by
  refine ⟨rfl, (C5_owner_samples podNoOwner).1 rfl, by decide, ?_⟩
  rw [(C5_owner_samples podTwoOwners).2 (by decide)]
  decide

/-- C7: the kube_deployment_spec_replicas generator dereferences the
`Spec.Replicas` pointer without a nil check, so a deployment missing the
desired-replicas field panics (modelled as `none`) instead of yielding "no
sample" (`some []`) — the wrapped generator propagates the failure. -/
theorem C7_nil_spec_replicas_panics :
    deploymentSpecReplicasInner nilReplicasDeployment = none ∧
    wrapDeploymentFunc deploymentSpecReplicasInner nilReplicasDeployment
        = none ∧
    deploymentSpecReplicasInner nilReplicasDeployment ≠ some [] := by
  refine ⟨rfl, rfl, by decide⟩

/-- C10: for every pod, kube_pod_info emits exactly one sample, valued 1.0,
with the six extra label keys in order; a missing controlling owner, or a
controller with an empty kind or name, puts the sentinel in the
created_by_kind / created_by_name label values. -/
theorem C10_pod_info_single_sample (p : Pod) :
    ∃ m : Metric, podInfoInner p = [m] ∧ m.value = 1 ∧
      m.labelKeys =
        ["host_ip", "pod_ip", "uid", "node",
         "created_by_kind", "created_by_name"] ∧
      m.labelValues.length = 6 ∧
      (getControllerOf p.meta = none →
         m.labelValues.getD 4 "" = "<none>" ∧
         m.labelValues.getD 5 "" = "<none>") ∧
      (∀ o : OwnerReference, getControllerOf p.meta = some o →
         m.labelValues.getD 4 ""
             = (if o.kind = "" then "<none>" else o.kind) ∧
         m.labelValues.getD 5 ""
             = (if o.name = "" then "<none>" else o.name)) := by
  rcases hcb : getControllerOf p.meta with _ | o
  · refine ⟨⟨"kube_pod_info",
      ["host_ip", "pod_ip", "uid", "node",
       "created_by_kind", "created_by_name"],
      [p.status.hostIP, p.status.podIP, p.meta.uid, p.spec.nodeName,
       "<none>", "<none>"], 1⟩,
      by simp [podInfoInner, hcb], rfl, rfl, rfl,
      fun _ => ⟨rfl, rfl⟩, fun o ho => by simp [hcb] at ho⟩
  · refine ⟨⟨"kube_pod_info",
      ["host_ip", "pod_ip", "uid", "node",
       "created_by_kind", "created_by_name"],
      [p.status.hostIP, p.status.podIP, p.meta.uid, p.spec.nodeName,
       if o.kind = "" then "<none>" else o.kind,
       if o.name = "" then "<none>" else o.name], 1⟩,
      ?_, rfl, rfl, rfl,
      fun hn => by simp [hcb] at hn, fun o' ho' => ?_⟩
    · by_cases hk : o.kind = "" <;> by_cases hn : o.name = "" <;>
        simp [podInfoInner, hcb, hk, hn]
    · injection ho' with h
      subst h
      constructor
      · by_cases hk : o.kind = "" <;> simp [hk]
      · by_cases hn : o.name = "" <;> simp [hn]

theorem C10_witness :
    getControllerOf podNoOwner.meta = none ∧
    ∃ m : Metric, podInfoInner podNoOwner = [m] ∧ m.value = 1 ∧
      m.labelValues.getD 4 "" = "<none>" ∧
      m.labelValues.getD 5 "" = "<none>" := by
  obtain ⟨m, hm, hv, _, _, hsent, _⟩ := C10_pod_info_single_sample podNoOwner
  exact ⟨rfl, m, hm, hv, (hsent rfl).1, (hsent rfl).2⟩

lemma flatMap_if_filter {α : Type} (P : α → Bool) (g : α → Family)
    (l : List α) :
    l.flatMap (fun c => if P c then g c else []) = (l.filter P).flatMap g := by
  induction l with
  | nil => rfl
  | cons c t ih => cases h : P c <;> simp [h, ih]

/-- C4: per container status, the waiting-reason generator emits one sample
per reason of the fixed enumerated set, valued 1.0 exactly when the waiting
state is present with that exact reason; a container whose actual waiting
reason is outside the set gets all-zero samples. -/
theorem C4_waiting_reason_enumeration (p : Pod) :
    (podWaitingReasonInner p).length
        = 5 * p.status.containerStatuses.length ∧
    (∀ cs ∈ p.status.containerStatuses, ∀ r ∈ containerWaitingReasons,
       (⟨"kube_pod_container_status_waiting_reason", ["container", "reason"],
         [cs.name, r], boolFloat64 (waitingReason cs r)⟩ : Metric)
         ∈ podWaitingReasonInner p) ∧
    (∀ (cs : ContainerStatus) (r : String),
       waitingReason cs r = true ↔
         ∃ w, cs.state.waiting = some w ∧ w.reason = r) ∧
    ((∀ cs ∈ p.status.containerStatuses,
        ∀ w, cs.state.waiting = some w →
          w.reason ∉ containerWaitingReasons) →
       ∀ m ∈ podWaitingReasonInner p, m.value = 0) := by
  refine ⟨?_, ?_, ?_, ?_⟩
  · have hlen : ∀ l : List ContainerStatus,
        (l.flatMap (fun cs => containerWaitingReasons.map (fun reason =>
          (⟨"kube_pod_container_status_waiting_reason",
            ["container", "reason"], [cs.name, reason],
            boolFloat64 (waitingReason cs reason)⟩ : Metric)))).length
          = 5 * l.length := by
      intro l
      induction l with
      | nil => simp
      | cons c t ih =>
        simp only [List.flatMap_cons, List.length_append, List.length_map,
          ih, List.length_cons]
        simp only [containerWaitingReasons, List.length_cons, List.length_nil]
        omega
    exact hlen p.status.containerStatuses
  · intro cs hcs r hr
    simp only [podWaitingReasonInner, List.mem_flatMap]
    exact ⟨cs, hcs, List.mem_map.mpr ⟨r, hr, rfl⟩⟩
  · intro cs r
    cases hw : cs.state.waiting with
    | none => simp [waitingReason, hw]
    | some w => simp [waitingReason, hw]
  · intro hout m hm
    simp only [podWaitingReasonInner, List.mem_flatMap, List.mem_map] at hm
    obtain ⟨cs, hcs, r, hr, rfl⟩ := hm
    show boolFloat64 (waitingReason cs r) = 0
    cases hw : cs.state.waiting with
    | none => simp [boolFloat64, waitingReason, hw]
    | some w =>
      have hnr : w.reason ∉ containerWaitingReasons := hout cs hcs w hw
      have hne : w.reason ≠ r := fun he => hnr (he ▸ hr)
      simp [boolFloat64, waitingReason, hw, hne]

theorem C4_witness :
    (∀ cs ∈ podWaitingOdd.status.containerStatuses,
       ∀ w, cs.state.waiting = some w →
         w.reason ∉ containerWaitingReasons) ∧
    (∀ m ∈ podWaitingReasonInner podWaitingOdd, m.value = 0) ∧
    (podWaitingReasonInner podWaitingOdd).length = 5 := by
  have h := C4_waiting_reason_enumeration podWaitingOdd
  exact ⟨by decide, h.2.2.2 (by decide), h.1⟩

/-- C6: a pod with a single PodReady (respectively PodScheduled) condition
whose status is True, False or Unknown gets three same-named samples sharing
the one extra "condition" label, with exactly one sample — the one naming
the condition's status — valued 1.0 and the other two valued 0.0. -/
theorem C6_tristate_condition_samples (p : Pod) :
    (∀ c, p.status.conditions.filter (fun x => x.type == "Ready") = [c] →
       c.status ∈ (["True", "False", "Unknown"] : List String) →
       (podStatusReadyInner p).length = 3 ∧
       (∀ m ∈ podStatusReadyInner p,
          m.name = "kube_pod_status_ready" ∧ m.labelKeys = ["condition"]) ∧
       (podStatusReadyInner p).map Metric.labelValues
           = [["true"], ["false"], ["unknown"]] ∧
       ((podStatusReadyInner p).filter (fun m => m.value == 1)).length = 1 ∧
       (∀ m ∈ podStatusReadyInner p,
          (m.value = 1 ↔ m.labelValues = [conditionStateLabel c.status])) ∧
       (∀ m ∈ podStatusReadyInner p,
          m.value = if m.labelValues = [conditionStateLabel c.status]
            then 1 else 0)) ∧
    (∀ c, p.status.conditions.filter (fun x => x.type == "PodScheduled")
            = [c] →
       c.status ∈ (["True", "False", "Unknown"] : List String) →
       (podStatusScheduledInner p).length = 3 ∧
       (∀ m ∈ podStatusScheduledInner p,
          m.name = "kube_pod_status_scheduled" ∧
          m.labelKeys = ["condition"]) ∧
       (podStatusScheduledInner p).map Metric.labelValues
           = [["true"], ["false"], ["unknown"]] ∧
       ((podStatusScheduledInner p).filter
           (fun m => m.value == 1)).length = 1 ∧
       (∀ m ∈ podStatusScheduledInner p,
          (m.value = 1 ↔ m.labelValues = [conditionStateLabel c.status])) ∧
       (∀ m ∈ podStatusScheduledInner p,
          m.value = if m.labelValues = [conditionStateLabel c.status]
            then 1 else 0)) := by
  constructor
  · intro c hc hs
    have hfam : podStatusReadyInner p =
        (addConditionMetrics c.status).map (fun m =>
          { m with name := "kube_pod_status_ready",
                   labelKeys := ["condition"] }) := by
      show p.status.conditions.flatMap _ = _
      rw [flatMap_if_filter (fun x : PodCondition => x.type == "Ready")
        (fun c : PodCondition => (addConditionMetrics c.status).map (fun m =>
          { m with name := "kube_pod_status_ready",
                   labelKeys := ["condition"] })), hc]
      simp
    rw [hfam]
    have hs3 : c.status = "True" ∨ c.status = "False" ∨ c.status = "Unknown" :=
      by simpa using hs
    rcases hs3 with hs3 | hs3 | hs3 <;> rw [hs3] <;> decide
  · intro c hc hs
    have hfam : podStatusScheduledInner p =
        (addConditionMetrics c.status).map (fun m =>
          { m with name := "kube_pod_status_scheduled",
                   labelKeys := ["condition"] }) := by
      show p.status.conditions.flatMap _ = _
      rw [flatMap_if_filter (fun x : PodCondition => x.type == "PodScheduled")
        (fun c : PodCondition => (addConditionMetrics c.status).map (fun m =>
          { m with name := "kube_pod_status_scheduled",
                   labelKeys := ["condition"] })), hc]
      simp
    rw [hfam]
    have hs3 : c.status = "True" ∨ c.status = "False" ∨ c.status = "Unknown" :=
      by simpa using hs
    rcases hs3 with hs3 | hs3 | hs3 <;> rw [hs3] <;> decide

theorem C6_witness :
    podWithConditions.status.conditions.filter
        (fun x => x.type == "Ready") = [⟨"Ready", "True"⟩] ∧
    podWithConditions.status.conditions.filter
        (fun x => x.type == "PodScheduled") = [⟨"PodScheduled", "False"⟩] ∧
    ((podStatusReadyInner podWithConditions).filter
        (fun m => m.value == 1)).length = 1 ∧
    (∀ m ∈ podStatusReadyInner podWithConditions,
       (m.value = 1 ↔ m.labelValues = ["true"])) ∧
    (∀ m ∈ podStatusReadyInner podWithConditions,
       m.value = if m.labelValues = ["true"] then 1 else 0) ∧
    ((podStatusScheduledInner podWithConditions).filter
        (fun m => m.value == 1)).length = 1 ∧
    (∀ m ∈ podStatusScheduledInner podWithConditions,
       (m.value = 1 ↔ m.labelValues = ["false"])) ∧
    (∀ m ∈ podStatusScheduledInner podWithConditions,
       m.value = if m.labelValues = ["false"] then 1 else 0) := by
  have hr := (C6_tristate_condition_samples podWithConditions).1
    ⟨"Ready", "True"⟩ (by decide) (by decide)
  have hs := (C6_tristate_condition_samples podWithConditions).2
    ⟨"PodScheduled", "False"⟩ (by decide) (by decide)
  exact ⟨by decide, by decide, hr.2.2.2.1, hr.2.2.2.2.1, hr.2.2.2.2.2,
    hs.2.2.2.1, hs.2.2.2.2.1, hs.2.2.2.2.2⟩

lemma lenEq_podInfoInner (p : Pod) :
    ∀ m ∈ podInfoInner p, m.labelKeys.length = m.labelValues.length := by
  intro m hm
  simp only [podInfoInner, List.mem_singleton] at hm
  subst hm
  rfl

lemma lenEq_podOwnerInner (p : Pod) :
    ∀ m ∈ podOwnerInner p, m.labelKeys.length = m.labelValues.length := by
  intro m hm
  rw [podOwnerInner] at hm
  split at hm
  · simp only [List.mem_singleton] at hm
    subst hm
    rfl
  · simp only [List.mem_map] at hm
    obtain ⟨o, _, rfl⟩ := hm
    cases o.controller <;> rfl

lemma lenEq_podStatusPhaseInner (p : Pod) :
    ∀ m ∈ podStatusPhaseInner p, m.labelKeys.length = m.labelValues.length := by
  intro m hm
  rw [podStatusPhaseInner] at hm
  split at hm
  · cases hm
  · simp only [List.mem_map] at hm
    obtain ⟨ph, _, rfl⟩ := hm
    rfl

lemma lenEq_addConditionMetrics (s : String) :
    ∀ m ∈ addConditionMetrics s, m.labelValues.length = 1 := by
  intro m hm
  simp only [addConditionMetrics, List.mem_cons, List.not_mem_nil,
    or_false] at hm
  rcases hm with rfl | rfl | rfl <;> rfl

lemma lenEq_podStatusReadyInner (p : Pod) :
    ∀ m ∈ podStatusReadyInner p, m.labelKeys.length = m.labelValues.length := by
  intro m hm
  simp only [podStatusReadyInner, List.mem_flatMap] at hm
  obtain ⟨c, _, hm⟩ := hm
  split at hm
  · simp only [List.mem_map] at hm
    obtain ⟨m0, hm0, rfl⟩ := hm
    simpa using (lenEq_addConditionMetrics c.status m0 hm0).symm
  · cases hm

lemma lenEq_podStatusScheduledInner (p : Pod) :
    ∀ m ∈ podStatusScheduledInner p,
      m.labelKeys.length = m.labelValues.length := by
  intro m hm
  simp only [podStatusScheduledInner, List.mem_flatMap] at hm
  obtain ⟨c, _, hm⟩ := hm
  split at hm
  · simp only [List.mem_map] at hm
    obtain ⟨m0, hm0, rfl⟩ := hm
    simpa using (lenEq_addConditionMetrics c.status m0 hm0).symm
  · cases hm

lemma lenEq_podWaitingReasonInner (p : Pod) :
    ∀ m ∈ podWaitingReasonInner p,
      m.labelKeys.length = m.labelValues.length := by
  intro m hm
  simp only [podWaitingReasonInner, List.mem_flatMap, List.mem_map] at hm
  obtain ⟨cs, _, r, _, rfl⟩ := hm
  rfl

lemma lenEq_deploymentInner (f : Deployment → Option Family)
    (hf : f ∈ deploymentInnerGenerators) :
    ∀ (d : Deployment) (fam : Family), f d = some fam →
      ∀ m ∈ fam, m.labelKeys.length = m.labelValues.length := by
  simp only [deploymentInnerGenerators, List.mem_cons, List.not_mem_nil,
    or_false] at hf
  rcases hf with rfl | rfl | rfl | rfl | rfl | rfl <;>
    intro d fam hfam m hm
  · rw [deploymentCreatedInner] at hfam
    injection hfam with hfam
    subst hfam
    split at hm
    · cases hm
    · simp only [List.mem_singleton] at hm
      subst hm
      rfl
  · injection hfam with hfam
    subst hfam
    simp only [List.mem_singleton] at hm
    subst hm
    rfl
  · injection hfam with hfam
    subst hfam
    simp only [List.mem_singleton] at hm
    subst hm
    rfl
  · injection hfam with hfam
    subst hfam
    simp only [List.mem_singleton] at hm
    subst hm
    rfl
  · rw [deploymentSpecReplicasInner] at hfam
    split at hfam
    · cases hfam
    · injection hfam with hfam
      subst hfam
      simp only [List.mem_singleton] at hm
      subst hm
      rfl
  · injection hfam with hfam
    subst hfam
    simp only [List.mem_singleton] at hm
    subst hm
    simp [kubeLabelsToPrometheusLabels]

lemma lenEq_namespaceLabelsInner (n : KubeNamespace) :
    ∀ m ∈ namespaceLabelsInner n,
      m.labelKeys.length = m.labelValues.length := by
  intro m hm
  simp only [namespaceLabelsInner, List.mem_singleton] at hm
  subst hm
  simp [kubeLabelsToPrometheusLabels]

lemma lenEq_namespaceAnnotInner (n : KubeNamespace) :
    ∀ m ∈ namespaceAnnotInner n,
      m.labelKeys.length = m.labelValues.length := by
  intro m hm
  simp only [namespaceAnnotInner, List.mem_singleton] at hm
  subst hm
  simp [kubeAnnotToPrometheusAnnot]

lemma lenEq_wrapPodFunc (f : Pod → Family)
    (hf : ∀ p, ∀ m ∈ f p, m.labelKeys.length = m.labelValues.length) :
    ∀ p, ∀ m ∈ wrapPodFunc f p,
      m.labelKeys.length = m.labelValues.length := by
  intro p m hm
  simp only [wrapPodFunc, List.mem_map] at hm
  obtain ⟨m0, hm0, rfl⟩ := hm
  simp [descPodLabelsDefaultLabels, hf p m0 hm0]

lemma lenEq_wrapDeploymentFunc (f : Deployment → Option Family)
    (hf : ∀ (d : Deployment) (fam : Family), f d = some fam →
      ∀ m ∈ fam, m.labelKeys.length = m.labelValues.length) :
    ∀ (d : Deployment) (fam : Family), wrapDeploymentFunc f d = some fam →
      ∀ m ∈ fam, m.labelKeys.length = m.labelValues.length := by
  intro d fam hw m hm
  rw [wrapDeploymentFunc] at hw
  cases hfd : f d with
  | none => rw [hfd] at hw; cases hw
  | some fam0 =>
    rw [hfd] at hw
    injection hw with hw
    subst hw
    simp only [List.mem_map] at hm
    obtain ⟨m0, hm0, rfl⟩ := hm
    simp [descDeploymentLabelsDefaultLabels, hf d fam0 hfd m0 hm0]

lemma lenEq_wrapNamespaceFunc (f : KubeNamespace → Family)
    (hf : ∀ n, ∀ m ∈ f n, m.labelKeys.length = m.labelValues.length) :
    ∀ n, ∀ m ∈ wrapNamespaceFunc f n,
      m.labelKeys.length = m.labelValues.length := by
  intro n m hm
  simp only [wrapNamespaceFunc, List.mem_map] at hm
  obtain ⟨m0, hm0, rfl⟩ := hm
  simp [descNamespaceLabelsDefaultLabels, hf n m0 hm0]

/-- C8: every sample produced by any registered pod, deployment or namespace
generator — both the inner generator and its wrapped form — has label-key
and label-value lists of equal length, so positional pairing is preserved. -/
theorem C8_label_lists_same_length :
    (∀ f ∈ podInnerGenerators, ∀ (p : Pod), ∀ m ∈ f p,
       m.labelKeys.length = m.labelValues.length) ∧
    (∀ g ∈ podMetricFamilies, ∀ (p : Pod), ∀ m ∈ g.generateFunc p,
       m.labelKeys.length = m.labelValues.length) ∧
    (∀ f ∈ deploymentInnerGenerators, ∀ (d : Deployment) (fam : Family),
       f d = some fam → ∀ m ∈ fam,
       m.labelKeys.length = m.labelValues.length) ∧
    (∀ g ∈ deploymentMetricFamilies, ∀ (d : Deployment) (fam : Family),
       g.generateFunc d = some fam → ∀ m ∈ fam,
       m.labelKeys.length = m.labelValues.length) ∧
    (∀ f ∈ namespaceInnerGenerators, ∀ (n : KubeNamespace), ∀ m ∈ f n,
       m.labelKeys.length = m.labelValues.length) ∧
    (∀ g ∈ namespaceMetricFamilies, ∀ (n : KubeNamespace),
       ∀ m ∈ g.generateFunc n,
       m.labelKeys.length = m.labelValues.length) := by
  refine ⟨?_, ?_, ?_, ?_, ?_, ?_⟩
  · intro f hf
    simp only [podInnerGenerators, List.mem_cons, List.not_mem_nil,
      or_false] at hf
    rcases hf with rfl | rfl | rfl | rfl | rfl | rfl
    · exact lenEq_podInfoInner
    · exact lenEq_podOwnerInner
    · exact lenEq_podStatusPhaseInner
    · exact lenEq_podStatusReadyInner
    · exact lenEq_podStatusScheduledInner
    · exact lenEq_podWaitingReasonInner
  · intro g hg
    simp only [podMetricFamilies, List.mem_cons, List.not_mem_nil,
      or_false] at hg
    rcases hg with rfl | rfl | rfl | rfl | rfl | rfl
    · exact lenEq_wrapPodFunc _ lenEq_podInfoInner
    · exact lenEq_wrapPodFunc _ lenEq_podOwnerInner
    · exact lenEq_wrapPodFunc _ lenEq_podStatusPhaseInner
    · exact lenEq_wrapPodFunc _ lenEq_podStatusReadyInner
    · exact lenEq_wrapPodFunc _ lenEq_podStatusScheduledInner
    · exact lenEq_wrapPodFunc _ lenEq_podWaitingReasonInner
  · exact fun f hf => lenEq_deploymentInner f hf
  · intro g hg
    simp only [deploymentMetricFamilies, List.mem_cons, List.not_mem_nil,
      or_false] at hg
    rcases hg with rfl | rfl | rfl | rfl | rfl | rfl
    · exact lenEq_wrapDeploymentFunc deploymentCreatedInner
        (lenEq_deploymentInner _ (by simp [deploymentInnerGenerators]))
    · exact lenEq_wrapDeploymentFunc deploymentStatusReplicasInner
        (lenEq_deploymentInner _ (by simp [deploymentInnerGenerators]))
    · exact lenEq_wrapDeploymentFunc deploymentStatusReplicasAvailInner
        (lenEq_deploymentInner _ (by simp [deploymentInnerGenerators]))
    · exact lenEq_wrapDeploymentFunc deploymentStatusReplicasUnavailInner
        (lenEq_deploymentInner _ (by simp [deploymentInnerGenerators]))
    · exact lenEq_wrapDeploymentFunc deploymentSpecReplicasInner
        (lenEq_deploymentInner _ (by simp [deploymentInnerGenerators]))
    · exact lenEq_wrapDeploymentFunc deploymentLabelsInner
        (lenEq_deploymentInner _ (by simp [deploymentInnerGenerators]))
  · intro f hf
    simp only [namespaceInnerGenerators, List.mem_cons, List.not_mem_nil,
      or_false] at hf
    rcases hf with rfl | rfl
    · exact lenEq_namespaceLabelsInner
    · exact lenEq_namespaceAnnotInner
  · intro g hg
    simp only [namespaceMetricFamilies, List.mem_cons, List.not_mem_nil,
      or_false] at hg
    rcases hg with rfl | rfl
    · exact lenEq_wrapNamespaceFunc _ lenEq_namespaceLabelsInner
    · exact lenEq_wrapNamespaceFunc _ lenEq_namespaceAnnotInner

theorem C8_witness :
    ∀ m ∈ wrapPodFunc podInfoInner podTwoOwners,
      m.labelKeys.length = m.labelValues.length :=
  C8_label_lists_same_length.2.1
    ⟨"kube_pod_info", .gauge, "Information about pod.",
     wrapPodFunc podInfoInner⟩
    (by simp [podMetricFamilies]) podTwoOwners

/-- C9: running a wrapped per-kind generator twice on the same unchanged
object, threading the metric heap through (so the second run sees every
in-place label mutation the first run performed), yields identical sample
lists — and each run's samples are exactly the pure wrapped generator's
output, so the generators hold no cross-call state. -/
theorem C9_double_run_same_samples (h₀ : Heap) :
    (∀ (g : Pod → Family) (p : Pod),
       readFamily ((wrapFuncH prependPodLabels (liftGen g)) p h₀).1
           ((wrapFuncH prependPodLabels (liftGen g)) p h₀).2
         = readFamily
             ((wrapFuncH prependPodLabels (liftGen g)) p
                 ((wrapFuncH prependPodLabels (liftGen g)) p h₀).1).1
             ((wrapFuncH prependPodLabels (liftGen g)) p
                 ((wrapFuncH prependPodLabels (liftGen g)) p h₀).1).2 ∧
       readFamily ((wrapFuncH prependPodLabels (liftGen g)) p h₀).1
           ((wrapFuncH prependPodLabels (liftGen g)) p h₀).2
         = wrapPodFunc g p) ∧
    (∀ (g : Deployment → Family) (d : Deployment),
       readFamily ((wrapFuncH prependDeploymentLabels (liftGen g)) d h₀).1
           ((wrapFuncH prependDeploymentLabels (liftGen g)) d h₀).2
         = readFamily
             ((wrapFuncH prependDeploymentLabels (liftGen g)) d
                 ((wrapFuncH prependDeploymentLabels (liftGen g)) d h₀).1).1
             ((wrapFuncH prependDeploymentLabels (liftGen g)) d
                 ((wrapFuncH prependDeploymentLabels (liftGen g)) d h₀).1).2) ∧
    (∀ (g : KubeNamespace → Family) (n : KubeNamespace),
       readFamily ((wrapFuncH prependNamespaceLabels (liftGen g)) n h₀).1
           ((wrapFuncH prependNamespaceLabels (liftGen g)) n h₀).2
         = readFamily
             ((wrapFuncH prependNamespaceLabels (liftGen g)) n
                 ((wrapFuncH prependNamespaceLabels (liftGen g)) n h₀).1).1
             ((wrapFuncH prependNamespaceLabels (liftGen g)) n
                 ((wrapFuncH prependNamespaceLabels (liftGen g)) n h₀).1).2 ∧
       readFamily ((wrapFuncH prependNamespaceLabels (liftGen g)) n h₀).1
           ((wrapFuncH prependNamespaceLabels (liftGen g)) n h₀).2
         = wrapNamespaceFunc g n) := by
  refine ⟨fun g p => ⟨?_, ?_⟩, fun g d => ?_, fun g n => ⟨?_, ?_⟩⟩
  · rw [wrapFuncH_lift_readFamily, wrapFuncH_lift_readFamily]
  · rw [wrapFuncH_lift_readFamily]
    rfl
  · rw [wrapFuncH_lift_readFamily, wrapFuncH_lift_readFamily]
  · rw [wrapFuncH_lift_readFamily, wrapFuncH_lift_readFamily]
  · rw [wrapFuncH_lift_readFamily]
    rfl
